import Mathlib

/-!
Shallow embedding of the mindfuljourney wellness-tracking server:
the `MemStorage` entity store (`src/server/routes.ts` / `src/server/storage.ts`)
and the Express request handlers for journals, moods, mindfulness sessions and
premium activation (`src/unnamed/part_001`), together with the Zod/drizzle-zod
input validation from `src/shared/schema.ts`.

Modelling conventions:
- JS `Map<number, T>` becomes an association list `List (Nat × T)` in insertion
  order; `Map.set` replaces in place when the key exists and appends otherwise,
  `Map.get` returns the value at the key, `Map.delete` removes the entry and
  reports whether one was removed, `Array.from(map.values())` is the list of
  values in insertion order.
- JS `Date` timestamps become `Nat` (milliseconds since epoch); comparisons
  `>=` / `<=` on dates compare these numbers, as `getTime()` does.
- `Array.prototype.sort` with a numeric comparator is a stable sort; it is
  modelled by `List.mergeSort`, which is stable.
- `throw new Error(msg)` in a storage method becomes `Except.error msg`; the
  in-memory map is never mutated before a throw in the source, so an error
  result leaves the state unchanged by construction.
- The scrypt helpers `hashPassword` / `comparePasswords` live in the out-of-scope
  auth module; they are carried as explicit function parameters.
-/

namespace MindfulJourney

/-- A row of the `users` table (`src/shared/schema.ts`): `stripeCustomerId` and
`stripeSubscriptionId` are nullable, all other columns are not null. -/
structure User where
  id : Nat
  username : String
  password : String
  email : String
  isPremium : Bool
  stripeCustomerId : Option String
  stripeSubscriptionId : Option String
  createdAt : Nat
  deriving Repr, DecidableEq

/-- A row of the `journals` table: `mood` is an integer column (the 1-5 scale is
only a source comment, not a constraint). -/
structure Journal where
  id : Nat
  userId : Nat
  title : String
  content : String
  mood : Int
  createdAt : Nat
  deriving Repr, DecidableEq

/-- A row of the `moods` table: `rating` is an integer column, `note` is the
only nullable column. -/
structure Mood where
  id : Nat
  userId : Nat
  rating : Int
  note : Option String
  createdAt : Nat
  deriving Repr, DecidableEq

/-- A row of the `mindfulness_sessions` table (the seeded in-memory catalog
omits `createdAt`, so it is omitted here as well). -/
structure MindfulnessSession where
  id : Nat
  title : String
  description : String
  audioUrl : String
  imageUrl : String
  duration : Nat
  isPremium : Bool
  deriving Repr, DecidableEq

/-! JS `Map<number, T>` as an association list in insertion order. -/

/-- JS `Map.get k`: the value stored at key `k`, if any. -/
def mapGet {α : Type} (m : List (Nat × α)) (k : Nat) : Option α :=
  match m with
  | [] => none
  | (k2, v) :: rest => if k2 = k then some v else mapGet rest k

/-- JS `Map.set k v`: replace the entry at `k` in place if present, otherwise
append a new entry. -/
def mapSet {α : Type} (m : List (Nat × α)) (k : Nat) (v : α) : List (Nat × α) :=
  match m with
  | [] => [(k, v)]
  | (k2, v2) :: rest =>
    if k2 = k then (k, v) :: rest else (k2, v2) :: mapSet rest k v

/-- JS `Map.delete k`: remove the entry at `k` and report whether one existed. -/
def mapDelete {α : Type} (m : List (Nat × α)) (k : Nat) : Bool × List (Nat × α) :=
  match m with
  | [] => (false, [])
  | (k2, v2) :: rest =>
    if k2 = k then (true, rest)
    else
      let r := mapDelete rest k
      (r.1, (k2, v2) :: r.2)

/-- JS `Array.from(map.values())`: the values in insertion order. -/
def mapValues {α : Type} (m : List (Nat × α)) : List α :=
  m.map (fun p => p.2)

/-! The `MemStorage` state: one `Map` per entity plus the id counters
(`userId`, `journalId`, `moodId`), all starting at 1 in the constructor. -/

/-- The mutable fields of `MemStorage` (`sessionId` is consumed entirely by the
constructor's seeding, so its final value 6 is not part of the running state). -/
structure StorageState where
  users : List (Nat × User)
  journals : List (Nat × Journal)
  moods : List (Nat × Mood)
  sessions : List (Nat × MindfulnessSession)
  userId : Nat
  journalId : Nat
  moodId : Nat
  deriving Repr, DecidableEq

/-- The five catalog sessions seeded by `initMindfulnessSessions`, with ids
assigned by `this.sessionId++` starting from 1: three free sessions then two
premium sessions. -/
def seededSessions : List MindfulnessSession :=
  [ { id := 1, title := "Morning Meditation",
      description := "Start your day with clarity and intention",
      audioUrl := "https://example.com/audio/morning-meditation.mp3",
      imageUrl := "https://images.unsplash.com/photo-1506126613408-eca07ce68773",
      duration := 600, isPremium := false },
    { id := 2, title := "Stress Relief",
      description := "Release tension and find calm",
      audioUrl := "https://example.com/audio/stress-relief.mp3",
      imageUrl := "https://images.unsplash.com/photo-1528715471579-d1bcf0ba5e83",
      duration := 900, isPremium := false },
    { id := 3, title := "Evening Wind Down",
      description := "Prepare your mind for restful sleep",
      audioUrl := "https://example.com/audio/evening-wind-down.mp3",
      imageUrl := "https://images.unsplash.com/photo-1519834804175-d5e9788535ac",
      duration := 480, isPremium := false },
    { id := 4, title := "Deep Focus",
      description := "Enhance concentration and productivity",
      audioUrl := "https://example.com/audio/deep-focus.mp3",
      imageUrl := "https://images.unsplash.com/photo-1544367567-0f2fcb009e0b",
      duration := 1200, isPremium := true },
    { id := 5, title := "Anxiety Release",
      description := "Techniques to calm anxious thoughts",
      audioUrl := "https://example.com/audio/anxiety-release.mp3",
      imageUrl := "https://images.unsplash.com/photo-1515894274780-af5088f618f6",
      duration := 900, isPremium := true } ]

/-- The `MemStorage` constructor: empty user/journal/mood maps, id counters at 1,
and the mindfulness catalog seeded by `initMindfulnessSessions`. -/
def initialStorage : StorageState :=
  { users := []
    journals := []
    moods := []
    sessions := seededSessions.map (fun s => (s.id, s))
    userId := 1
    journalId := 1
    moodId := 1 }

/-! User operations of `MemStorage`. -/

/-- The `InsertUser` type: `insertUserSchema` picks exactly `username`,
`password` and `email` from the `users` columns. -/
structure InsertUser where
  username : String
  password : String
  email : String
  deriving Repr, DecidableEq

/-- `MemStorage.getUser`. -/
def getUser (s : StorageState) (id : Nat) : Option User :=
  mapGet s.users id

/-- `MemStorage.createUser`: assigns `id = this.userId++`, stamps `createdAt`
with the current time, and overrides `isPremium` to `false` and both Stripe
fields to `null` after spreading the insert input. -/
def createUser (s : StorageState) (now : Nat) (ins : InsertUser) :
    User × StorageState :=
  let id := s.userId
  let user : User :=
    { id := id
      username := ins.username
      password := ins.password
      email := ins.email
      isPremium := false
      stripeCustomerId := none
      stripeSubscriptionId := none
      createdAt := now }
  (user, { s with users := mapSet s.users id user, userId := s.userId + 1 })

/-- `MemStorage.updateUserPremium`: throws `"User not found"` for a missing id,
otherwise stores `{ ...user, isPremium }` and returns it. -/
def updateUserPremium (s : StorageState) (id : Nat) (isPremium : Bool) :
    Except String (User × StorageState) :=
  match getUser s id with
  | none => .error "User not found"
  | some user =>
    let updatedUser := { user with isPremium := isPremium }
    .ok (updatedUser, { s with users := mapSet s.users id updatedUser })

/-- `MemStorage.updateUserStripeInfo`: throws `"User not found"` for a missing
id, otherwise stores `{ ...user, stripeCustomerId, stripeSubscriptionId,
isPremium: true }` and returns it. -/
def updateUserStripeInfo (s : StorageState) (id : Nat)
    (stripeCustomerId stripeSubscriptionId : String) :
    Except String (User × StorageState) :=
  match getUser s id with
  | none => .error "User not found"
  | some user =>
    let updatedUser :=
      { user with
        stripeCustomerId := some stripeCustomerId
        stripeSubscriptionId := some stripeSubscriptionId
        isPremium := true }
    .ok (updatedUser, { s with users := mapSet s.users id updatedUser })

/-- `MemStorage.updateUserPassword`: throws `"User not found"` for a missing id;
verifies the old password with `comparePasswords` and throws
`"Current password is incorrect"` on mismatch before touching the map;
on success stores `{ ...user, password: hashPassword(newPassword) }`.
`hashPassword` and `comparePasswords` are the external auth collaborators. -/
def updateUserPassword (hashPassword : String → String)
    (comparePasswords : String → String → Bool)
    (s : StorageState) (id : Nat) (oldPassword newPassword : String) :
    Except String (User × StorageState) :=
  match getUser s id with
  | none => .error "User not found"
  | some user =>
    if comparePasswords oldPassword user.password then
      let updatedUser := { user with password := hashPassword newPassword }
      .ok (updatedUser, { s with users := mapSet s.users id updatedUser })
    else
      .error "Current password is incorrect"

/-! Journal operations of `MemStorage`. -/

/-- The `InsertJournal` type: `insertJournalSchema` picks `userId`, `title`,
`content` and `mood` from the `journals` columns. -/
structure InsertJournal where
  userId : Nat
  title : String
  content : String
  mood : Int
  deriving Repr, DecidableEq

/-- The output type of `insertJournalSchema.partial().parse`: each picked field
becomes optional (and Zod strips all unrecognised keys, in particular `id`).
Note that `userId` is one of the picked fields, so it may appear in a patch. -/
structure JournalPatch where
  userId : Option Nat := none
  title : Option String := none
  content : Option String := none
  mood : Option Int := none
  deriving Repr, DecidableEq

/-- The JS object spread `{ ...existingJournal, ...journalData }` used by
`MemStorage.updateJournal`: present patch fields override, absent ones keep the
existing value; `id` and `createdAt` are never in the patch type. -/
def mergeJournal (j : Journal) (p : JournalPatch) : Journal :=
  { j with
    userId := p.userId.getD j.userId
    title := p.title.getD j.title
    content := p.content.getD j.content
    mood := p.mood.getD j.mood }

/-- `MemStorage.getJournal`. -/
def getJournal (s : StorageState) (id : Nat) : Option Journal :=
  mapGet s.journals id

/-- `MemStorage.createJournal`: assigns `id = this.journalId++`, stamps
`createdAt = now`, stores and returns the new journal. -/
def createJournal (s : StorageState) (now : Nat) (ins : InsertJournal) :
    Journal × StorageState :=
  let id := s.journalId
  let newJournal : Journal :=
    { id := id
      userId := ins.userId
      title := ins.title
      content := ins.content
      mood := ins.mood
      createdAt := now }
  (newJournal,
   { s with journals := mapSet s.journals id newJournal,
            journalId := s.journalId + 1 })

/-- `MemStorage.updateJournal`: throws `"Journal not found"` for a missing id,
otherwise stores and returns `{ ...existingJournal, ...journal }`. -/
def updateJournal (s : StorageState) (id : Nat) (p : JournalPatch) :
    Except String (Journal × StorageState) :=
  match getJournal s id with
  | none => .error "Journal not found"
  | some existingJournal =>
    let updatedJournal := mergeJournal existingJournal p
    .ok (updatedJournal, { s with journals := mapSet s.journals id updatedJournal })

/-- `MemStorage.deleteJournal`: `this.journals.delete(id)` — returns whether a
row was removed; the `journalId` counter is untouched. -/
def deleteJournal (s : StorageState) (id : Nat) : Bool × StorageState :=
  let r := mapDelete s.journals id
  (r.1, { s with journals := r.2 })

/-- `MemStorage.getJournalsByUserId`: values filtered to the owner, stable-sorted
newest-first (`b.createdAt - a.createdAt` comparator). -/
def getJournalsByUserId (s : StorageState) (userId : Nat) : List Journal :=
  ((mapValues s.journals).filter (fun j => j.userId = userId)).mergeSort
    (fun a b => b.createdAt ≤ a.createdAt)

/-! Mood operations of `MemStorage`. -/

/-- The `InsertMood` type: `insertMoodSchema` picks `userId`, `rating` and
`note` from the `moods` columns; `note` is nullable and optional. -/
structure InsertMood where
  userId : Nat
  rating : Int
  note : Option String
  deriving Repr, DecidableEq

/-- The JS expression `mood.note || null`: `undefined` and `null` become `null`,
and so does the empty string (falsy); any other string is kept. -/
def jsNullableNote (note : Option String) : Option String :=
  match note with
  | none => none
  | some str => if str = "" then none else some str

/-- `MemStorage.createMood`: assigns `id = this.moodId++`, stamps
`createdAt = now`, normalises `note` with `mood.note || null`, stores and
returns the new mood. -/
def createMood (s : StorageState) (now : Nat) (ins : InsertMood) :
    Mood × StorageState :=
  let id := s.moodId
  let newMood : Mood :=
    { id := id
      userId := ins.userId
      rating := ins.rating
      note := jsNullableNote ins.note
      createdAt := now }
  (newMood, { s with moods := mapSet s.moods id newMood, moodId := s.moodId + 1 })

/-- `MemStorage.getMoodsByUserId`: values filtered to the owner, stable-sorted
newest-first. -/
def getMoodsByUserId (s : StorageState) (userId : Nat) : List Mood :=
  ((mapValues s.moods).filter (fun m => m.userId = userId)).mergeSort
    (fun a b => b.createdAt ≤ a.createdAt)

/-- `MemStorage.getMoodsByUserIdInRange`: values filtered to the owner with
`startDate <= createdAt <= endDate` (inclusive on both ends), stable-sorted
oldest-first (`a.createdAt - b.createdAt` comparator). -/
def getMoodsByUserIdInRange (s : StorageState) (userId startDate endDate : Nat) :
    List Mood :=
  ((mapValues s.moods).filter
      (fun m => m.userId = userId ∧ startDate ≤ m.createdAt ∧ m.createdAt ≤ endDate)).mergeSort
    (fun a b => a.createdAt ≤ b.createdAt)

/-! Mindfulness operations of `MemStorage`. -/

/-- `MemStorage.getMindfulnessSessions`: the whole catalog when
`includePremium`, otherwise only the sessions with `isPremium = false`. -/
def getMindfulnessSessions (s : StorageState) (includePremium : Bool) :
    List MindfulnessSession :=
  let sessions := mapValues s.sessions
  if includePremium then sessions
  else sessions.filter (fun sess => !sess.isPremium)

/-- `MemStorage.getMindfulnessSession`. -/
def getMindfulnessSession (s : StorageState) (id : Nat) :
    Option MindfulnessSession :=
  mapGet s.sessions id

/-! Request handlers (`src/unnamed/part_001`). Each handler is modelled after
its authentication guard has passed, so the authenticated principal's fields
are explicit arguments; the HTTP status code and the post-state are returned. -/

/-- Handler `GET /api/journals/:id`: 404 when the journal does not exist, 403
when it exists but is owned by another user, 200 with the journal otherwise.
The handler never writes to the store. -/
def getJournalRoute (s : StorageState) (uid : Nat) (jid : Nat) :
    Nat × Option Journal :=
  match getJournal s jid with
  | none => (404, none)
  | some journal =>
    if journal.userId ≠ uid then (403, none)
    else (200, some journal)

/-- Handler `PUT /api/journals/:id`: existence check (404) first, then
ownership (403), then `insertJournalSchema.partial().parse(req.body)` — a body
that fails Zod validation is modelled as `none` and yields 400 — and finally
`updateJournal` with the parsed patch, answering 200. -/
def putJournalRoute (s : StorageState) (uid : Nat) (jid : Nat)
    (body : Option JournalPatch) : Nat × StorageState :=
  match getJournal s jid with
  | none => (404, s)
  | some existingJournal =>
    if existingJournal.userId ≠ uid then (403, s)
    else
      match body with
      | none => (400, s)
      | some p =>
        match updateJournal s jid p with
        | .error _ => (400, s)
        | .ok (_, s2) => (200, s2)

/-- Handler `DELETE /api/journals/:id`: existence check (404) first, then
ownership (403), then `deleteJournal` and 204. -/
def deleteJournalRoute (s : StorageState) (uid : Nat) (jid : Nat) :
    Nat × StorageState :=
  match getJournal s jid with
  | none => (404, s)
  | some existingJournal =>
    if existingJournal.userId ≠ uid then (403, s)
    else (204, (deleteJournal s jid).2)

/-- The check `insertMoodSchema.parse({ ...req.body, userId: req.user.id })`
performs on the rating: drizzle-zod's `createInsertSchema` derives the field
schema from the column type alone, so the `integer("rating")` column yields a
plain number check — the field must be present and numeric, and NO 1-5 range
refinement is generated (the "1-5 scale" in `src/shared/schema.ts` is only a
comment). `none` models an absent or non-numeric rating. -/
def insertMoodSchemaParse (uid : Nat) (rating : Option Int)
    (note : Option String) : Except String InsertMood :=
  match rating with
  | none => .error "Validation error: rating is required"
  | some r => .ok { userId := uid, rating := r, note := note }

/-- Handler `POST /api/moods`: parse the body with `insertMoodSchema` (any
failure is caught and answered with 400), then `createMood` and 201 with the
created mood. -/
def postMoodsRoute (s : StorageState) (now : Nat) (uid : Nat)
    (rating : Option Int) (note : Option String) :
    Nat × StorageState × Option Mood :=
  match insertMoodSchemaParse uid rating note with
  | .error _ => (400, s, none)
  | .ok ins =>
    let r := createMood s now ins
    (201, r.2, some r.1)

/-- Handler `GET /api/mindfulness`: the session list filtered by the
principal's `isPremium` flag. -/
def getMindfulnessRoute (s : StorageState) (userIsPremium : Bool) :
    List MindfulnessSession :=
  getMindfulnessSessions s userIsPremium

/-- Handler `GET /api/mindfulness/:id`: 404 when the session does not exist,
403 (`"Premium subscription required"`) when it is premium and the principal
is not, 200 with the session otherwise. -/
def getMindfulnessSessionRoute (s : StorageState) (userIsPremium : Bool)
    (sid : Nat) : Nat × Option MindfulnessSession :=
  match getMindfulnessSession s sid with
  | none => (404, none)
  | some sess =>
    if sess.isPremium ∧ ¬userIsPremium then (403, none)
    else (200, some sess)

/-- Handler `POST /api/premium/activate`: `updateUserPremium(user.id, true)`;
a thrown storage error is answered with 400, success with 200. -/
def premiumActivateRoute (s : StorageState) (uid : Nat) : Nat × StorageState :=
  match updateUserPremium s uid true with
  | .error _ => (400, s)
  | .ok (_, s2) => (200, s2)

/-! Operation sequences over the store, for the id-assignment invariant. -/

/-- A create or delete operation against one of the three per-user entity
stores (mindfulness sessions are seeded once and read-only, and no delete
exists for users or moods in the source). -/
inductive StoreOp where
  | createUserOp (now : Nat) (ins : InsertUser)
  | createJournalOp (now : Nat) (ins : InsertJournal)
  | deleteJournalOp (id : Nat)
  | createMoodOp (now : Nat) (ins : InsertMood)
  deriving Repr, DecidableEq

/-- Apply one operation to the store state. -/
def applyOp (s : StorageState) (op : StoreOp) : StorageState :=
  match op with
  | .createUserOp now ins => (createUser s now ins).2
  | .createJournalOp now ins => (createJournal s now ins).2
  | .deleteJournalOp id => (deleteJournal s id).2
  | .createMoodOp now ins => (createMood s now ins).2

/-- Run a sequence of operations left to right. -/
def runOps (s : StorageState) (ops : List StoreOp) : StorageState :=
  ops.foldl applyOp s

/-- The ids handed out by `create` calls of one entity store along a run, in
order: a create records the id the store assigns at that point. -/
def assignedIds (pick : StoreOp → StorageState → Option Nat) :
    StorageState → List StoreOp → List Nat
  | _, [] => []
  | s, op :: ops =>
    match pick op s with
    | some i => i :: assignedIds pick (applyOp s op) ops
    | none => assignedIds pick (applyOp s op) ops

/-- The id `createJournal` would assign, for create-journal operations. -/
def pickJournalId (op : StoreOp) (s : StorageState) : Option Nat :=
  match op with
  | .createJournalOp _ _ => some s.journalId
  | _ => none

/-- The id `createUser` would assign, for create-user operations. -/
def pickUserId (op : StoreOp) (s : StorageState) : Option Nat :=
  match op with
  | .createUserOp _ _ => some s.userId
  | _ => none

/-- The id `createMood` would assign, for create-mood operations. -/
def pickMoodId (op : StoreOp) (s : StorageState) : Option Nat :=
  match op with
  | .createMoodOp _ _ => some s.moodId
  | _ => none

/-- `MemStorage.getMood`. -/
def getMood (s : StorageState) (id : Nat) : Option Mood :=
  mapGet s.moods id

/-- Handler `PUT /api/user/password`: the Zod body schema requires all three
fields to have at least 6 characters and `newPassword == confirmPassword`
(400 otherwise), then calls `updateUserPassword`; a thrown storage error —
including the current-password mismatch — is caught and answered with 400,
leaving the store untouched; success answers 200. -/
def putUserPasswordRoute (hashPassword : String → String)
    (comparePasswords : String → String → Bool) (s : StorageState) (uid : Nat)
    (currentPassword newPassword confirmPassword : String) :
    Nat × StorageState :=
  if ¬ (6 ≤ currentPassword.length ∧ 6 ≤ newPassword.length ∧
        6 ≤ confirmPassword.length) then (400, s)
  else if newPassword ≠ confirmPassword then (400, s)
  else
    match updateUserPassword hashPassword comparePasswords s uid
        currentPassword newPassword with
    | .error _ => (400, s)
    | .ok (_, s2) => (200, s2)

/-! Concrete states used to evaluate the model on closed inputs. -/

/-- A store holding the single registered user
`{ id := 1, password := "secret#" }`. -/
def oneUserState : StorageState :=
  (createUser initialStorage 50 { username := "ann", password := "secret#", email := "ann@example.com" }).2

/-- The single user stored in `oneUserState`. -/
def annUser : User :=
  { id := 1, username := "ann", password := "secret#",
    email := "ann@example.com", isPremium := false, stripeCustomerId := none,
    stripeSubscriptionId := none, createdAt := 50 }

/-- A store where user 1 owns the single journal
`{ id := 1, title := "T", content := "C", mood := 3 }`. -/
def oneJournalState : StorageState :=
  (createJournal oneUserState 100
    { userId := 1, title := "T", content := "C", mood := 3 }).2

/-! Helper lemmas about the `Map` model. -/

theorem mapGet_mapSet_self {α : Type} (m : List (Nat × α)) (k : Nat) (v : α) :
    mapGet (mapSet m k v) k = some v := by
  induction m with
  | nil => simp [mapGet, mapSet]
  | cons hd tl ih =>
    obtain ⟨k2, v2⟩ := hd
    by_cases hk : k2 = k
    · simp [mapGet, mapSet, hk]
    · simp [mapGet, mapSet, hk, ih]

theorem mapSet_eq_of_mapGet {α : Type} (m : List (Nat × α)) (k : Nat) (v : α)
    (h : mapGet m k = some v) : mapSet m k v = m := by
  induction m with
  | nil => simp [mapGet] at h
  | cons hd tl ih =>
    obtain ⟨k2, v2⟩ := hd
    by_cases hk : k2 = k
    · subst hk
      simp [mapGet] at h
      simp [mapSet, h]
    · simp [mapGet, hk] at h
      simp [mapSet, hk, ih h]

/-- C10: for every insert input, `createUser` returns and stores a user with
`isPremium = false`, `stripeCustomerId = null` and `stripeSubscriptionId =
null`, regardless of the values supplied in the input — every newly registered
user starts non-premium with no billing identifiers. -/
theorem createUser_starts_non_premium (s : StorageState) (now : Nat)
    (ins : InsertUser) :
    (createUser s now ins).1.isPremium = false ∧
    (createUser s now ins).1.stripeCustomerId = none ∧
    (createUser s now ins).1.stripeSubscriptionId = none ∧
    getUser (createUser s now ins).2 (createUser s now ins).1.id =
      some (createUser s now ins).1 := by
  refine ⟨rfl, rfl, rfl, ?_⟩
  simp [createUser, getUser, mapGet_mapSet_self]

/-- C9: for every existing user, `updateUserStripeInfo` records the Stripe
customer and subscription ids and, in the same write, sets `isPremium = true`,
leaving every other user field unchanged — the user becomes premium as soon as
the subscription record is created. -/
theorem updateUserStripeInfo_sets_premium (s : StorageState) (id : Nat)
    (u : User) (cust sub : String) (h : getUser s id = some u) :
    ∃ u2 s2, updateUserStripeInfo s id cust sub = Except.ok (u2, s2) ∧
      u2.isPremium = true ∧
      u2.stripeCustomerId = some cust ∧
      u2.stripeSubscriptionId = some sub ∧
      u2.id = u.id ∧ u2.username = u.username ∧ u2.password = u.password ∧
      u2.email = u.email ∧ u2.createdAt = u.createdAt ∧
      getUser s2 id = some u2 := by
  refine ⟨{ u with stripeCustomerId := some cust, stripeSubscriptionId := some sub, isPremium := true },
    { s with users := mapSet s.users id { u with stripeCustomerId := some cust, stripeSubscriptionId := some sub, isPremium := true } },
    ?_, rfl, rfl, rfl, rfl, rfl, rfl, rfl, rfl, ?_⟩
  · simp [updateUserStripeInfo, h]
  · simp [getUser, mapGet_mapSet_self]

/-- C5: premium activation is idempotent — for every existing user,
`updateUserPremium(id, true)` as invoked by `POST /api/premium/activate`
succeeds twice in succession, `isPremium = true` holds after both calls, the
second call raises no error, and the user record and store state after the
second call are identical to those after the first. -/
theorem premium_activation_idempotent (s : StorageState) (id : Nat) (u : User)
    (h : getUser s id = some u) :
    ∃ s1 u1, premiumActivateRoute s id = (200, s1) ∧
      getUser s1 id = some u1 ∧
      u1.isPremium = true ∧
      updateUserPremium s id true = Except.ok (u1, s1) ∧
      updateUserPremium s1 id true = Except.ok (u1, s1) ∧
      premiumActivateRoute s1 id = (200, s1) := by
  have h1 : updateUserPremium s id true =
      Except.ok (({ u with isPremium := true } : User),
        ({ s with users := mapSet s.users id { u with isPremium := true } } : StorageState)) := by
    simp [updateUserPremium, h]
  have hget : getUser ({ s with users := mapSet s.users id { u with isPremium := true } } : StorageState) id =
      some ({ u with isPremium := true } : User) := by
    simp [getUser, mapGet_mapSet_self]
  have hmap : mapSet (mapSet s.users id { u with isPremium := true }) id { u with isPremium := true } =
      mapSet s.users id { u with isPremium := true } :=
    mapSet_eq_of_mapGet _ _ _ (mapGet_mapSet_self _ _ _)
  have h2 : updateUserPremium ({ s with users := mapSet s.users id { u with isPremium := true } } : StorageState) id true =
      Except.ok (({ u with isPremium := true } : User),
        ({ s with users := mapSet s.users id { u with isPremium := true } } : StorageState)) := by
    simp [updateUserPremium, getUser, mapGet_mapSet_self, hmap]
  exact ⟨_, _, by simp [premiumActivateRoute, h1], hget, rfl, h1, h2,
    by simp [premiumActivateRoute, h2]⟩

/-- C2: for GET, PUT and DELETE on `/api/journals/:id` by an authenticated
user: a missing journal answers 404; an existing journal owned by a different
user answers 403 with the store unchanged (nothing is modified or deleted);
and the existence check runs before the ownership check, so probing a
nonexistent id always observes 404, never 403. -/
theorem journal_routes_existence_then_ownership (s : StorageState)
    (uid jid : Nat) (body : Option JournalPatch) :
    (getJournal s jid = none →
       getJournalRoute s uid jid = (404, none) ∧
       putJournalRoute s uid jid body = (404, s) ∧
       deleteJournalRoute s uid jid = (404, s)) ∧
    (∀ j : Journal, getJournal s jid = some j → j.userId ≠ uid →
       getJournalRoute s uid jid = (403, none) ∧
       putJournalRoute s uid jid body = (403, s) ∧
       deleteJournalRoute s uid jid = (403, s)) := by
  constructor
  · intro h
    refine ⟨?_, ?_, ?_⟩ <;>
      simp [getJournalRoute, putJournalRoute, deleteJournalRoute, h]
  · intro j h hne
    refine ⟨?_, ?_, ?_⟩ <;>
      simp [getJournalRoute, putJournalRoute, deleteJournalRoute, h, hne]

/-- Witness for C5: activating premium twice on the concrete one-user store
gives 200 both times, with an identical state and an `isPremium = true` user
record after each call. -/
theorem premium_activation_idempotent_witness :
    ∃ s1 u1, premiumActivateRoute oneUserState 1 = (200, s1) ∧
      getUser s1 1 = some u1 ∧
      u1.isPremium = true ∧
      updateUserPremium oneUserState 1 true = Except.ok (u1, s1) ∧
      updateUserPremium s1 1 true = Except.ok (u1, s1) ∧
      premiumActivateRoute s1 1 = (200, s1) :=
  premium_activation_idempotent oneUserState 1
    { id := 1, username := "ann", password := "secret#",
      email := "ann@example.com", isPremium := false, stripeCustomerId := none,
      stripeSubscriptionId := none, createdAt := 50 }
    rfl

/-- Witness for C9: recording Stripe info for the concrete one-user store
flips that user to premium in the same write. -/
theorem updateUserStripeInfo_sets_premium_witness :
    ∃ u2 s2, updateUserStripeInfo oneUserState 1 "cus_1" "sub_1" =
        Except.ok (u2, s2) ∧
      u2.isPremium = true ∧
      u2.stripeCustomerId = some "cus_1" ∧
      u2.stripeSubscriptionId = some "sub_1" ∧
      u2.id = 1 ∧ u2.username = "ann" ∧ u2.password = "secret#" ∧
      u2.email = "ann@example.com" ∧ u2.createdAt = 50 ∧
      getUser s2 1 = some u2 :=
  updateUserStripeInfo_sets_premium oneUserState 1
    { id := 1, username := "ann", password := "secret#",
      email := "ann@example.com", isPremium := false, stripeCustomerId := none,
      stripeSubscriptionId := none, createdAt := 50 }
    "cus_1" "sub_1" rfl

/-- Witness for C2: on the concrete store where user 1 owns journal 1, user 2
probing the nonexistent journal 2 observes 404 on all three verbs, and user 2
accessing journal 1 observes 403 with the store unchanged. -/
theorem journal_routes_existence_then_ownership_witness :
    (getJournalRoute oneJournalState 2 2 = (404, none) ∧
     putJournalRoute oneJournalState 2 2 none = (404, oneJournalState) ∧
     deleteJournalRoute oneJournalState 2 2 = (404, oneJournalState)) ∧
    (getJournalRoute oneJournalState 2 1 = (403, none) ∧
     putJournalRoute oneJournalState 2 1 none = (403, oneJournalState) ∧
     deleteJournalRoute oneJournalState 2 1 = (403, oneJournalState)) :=
  ⟨(journal_routes_existence_then_ownership oneJournalState 2 2 none).1 rfl,
   (journal_routes_existence_then_ownership oneJournalState 2 1 none).2
     { id := 1, userId := 1, title := "T", content := "C", mood := 3,
       createdAt := 100 }
     rfl (by decide)⟩

/-- C3: the mindfulness list for a non-premium user contains no premium
session, even though premium sessions exist in the seeded catalog; fetching an
existing premium session by id as a non-premium user answers 403; and for a
premium user the list is the entire catalog. -/
theorem mindfulness_entitlement_filtering :
    (∀ s : StorageState, ∀ sess ∈ getMindfulnessRoute s false,
       sess.isPremium = false) ∧
    (∀ s : StorageState, getMindfulnessRoute s true = mapValues s.sessions) ∧
    (∃ sess ∈ mapValues initialStorage.sessions, sess.isPremium = true) ∧
    (∀ (s : StorageState) (sid : Nat) (sess : MindfulnessSession),
       getMindfulnessSession s sid = some sess → sess.isPremium = true →
       getMindfulnessSessionRoute s false sid = (403, none)) := by
  refine ⟨?_, ?_, ?_, ?_⟩
  · intro s sess hmem
    simp [getMindfulnessRoute, getMindfulnessSessions, List.mem_filter] at hmem
    exact hmem.2
  · intro s
    rfl
  · decide
  · intro s sid sess hget hprem
    simp [getMindfulnessSessionRoute, hget, hprem]

/-- Witness for C3: on the seeded catalog, a premium session exists and a
non-premium user fetching premium session 4 ("Deep Focus") observes 403. -/
theorem mindfulness_entitlement_filtering_witness :
    (∃ sess ∈ mapValues initialStorage.sessions, sess.isPremium = true) ∧
    getMindfulnessSessionRoute initialStorage false 4 = (403, none) :=
  ⟨mindfulness_entitlement_filtering.2.2.1,
   mindfulness_entitlement_filtering.2.2.2 initialStorage 4
     { id := 4, title := "Deep Focus",
       description := "Enhance concentration and productivity",
       audioUrl := "https://example.com/audio/deep-focus.mp3",
       imageUrl := "https://images.unsplash.com/photo-1544367567-0f2fcb009e0b",
       duration := 1200, isPremium := true }
     rfl rfl⟩

/-- C4 counterexample: `insertJournalSchema.partial()` keeps `userId` as an
accepted optional field, so the owner of journal 1 can send
`PUT /api/journals/1` with body `{ "userId": 2 }`: the request is accepted
(200) and the stored journal's `userId` changes from 1 to 2 — the claim that
an accepted partial update can never change `userId` is false on the code. -/
theorem putJournal_changes_userId_counterexample :
    (getJournal oneJournalState 1).map Journal.userId = some 1 ∧
    (putJournalRoute oneJournalState 1 1 (some { userId := some 2 })).1 = 200 ∧
    (getJournal (putJournalRoute oneJournalState 1 1 (some { userId := some 2 })).2 1).map
      Journal.userId = some 2 :=
  ⟨rfl, rfl, rfl⟩

/-- C4 (amended): for every existing journal and accepted partial update body,
the successful PUT merges the partial fields and can never change the
journal's `id` or `createdAt` (Zod strips unrecognised keys); the `userId` is
unchanged whenever the body does not supply a `userId` field — but `userId` is
itself one of the accepted partial fields, so a body supplying it does change
the stored owner. -/
theorem putJournal_merge_frame (s : StorageState) (uid jid : Nat)
    (p : JournalPatch) (j : Journal) (h : getJournal s jid = some j)
    (hown : j.userId = uid) :
    ∃ s2, putJournalRoute s uid jid (some p) = (200, s2) ∧
      getJournal s2 jid = some (mergeJournal j p) ∧
      (mergeJournal j p).id = j.id ∧
      (mergeJournal j p).createdAt = j.createdAt ∧
      (p.userId = none → (mergeJournal j p).userId = j.userId) := by
  refine ⟨{ s with journals := mapSet s.journals jid (mergeJournal j p) },
    ?_, ?_, rfl, rfl, ?_⟩
  · simp [putJournalRoute, updateJournal, h, hown]
  · simp [getJournal, mapGet_mapSet_self]
  · intro hnone
    simp [mergeJournal, hnone]

/-- Witness for C4 (amended): updating journal 1's title leaves its id,
createdAt and owner unchanged. -/
theorem putJournal_merge_frame_witness :
    ∃ s2, putJournalRoute oneJournalState 1 1 (some { title := some "T2" }) = (200, s2) ∧
      getJournal s2 1 = some (mergeJournal
        { id := 1, userId := 1, title := "T", content := "C", mood := 3, createdAt := 100 }
        { title := some "T2" }) ∧
      (mergeJournal
        { id := 1, userId := 1, title := "T", content := "C", mood := 3, createdAt := 100 }
        { title := some "T2" }).id = 1 ∧
      (mergeJournal
        { id := 1, userId := 1, title := "T", content := "C", mood := 3, createdAt := 100 }
        { title := some "T2" }).createdAt = 100 ∧
      (({ title := some "T2" } : JournalPatch).userId = none →
        (mergeJournal
          { id := 1, userId := 1, title := "T", content := "C", mood := 3, createdAt := 100 }
          { title := some "T2" }).userId = 1) :=
  putJournal_merge_frame oneJournalState 1 1 { title := some "T2" }
    { id := 1, userId := 1, title := "T", content := "C", mood := 3, createdAt := 100 }
    rfl rfl

/-- C7: `updateUserPassword` first verifies the current password against the
stored hash with `comparePasswords`: on mismatch it raises exactly the domain
error `"Current password is incorrect"` before any write — the handler catches
it and answers 400 with the store unchanged — and on success the stored
password becomes `hashPassword newPassword` while every other user field and
the other entity stores are unchanged. -/
theorem updateUserPassword_verifies_current (hashPassword : String → String)
    (comparePasswords : String → String → Bool) (s : StorageState) (id : Nat)
    (u : User) (oldPassword newPassword : String)
    (h : getUser s id = some u) :
    (comparePasswords oldPassword u.password = false →
       updateUserPassword hashPassword comparePasswords s id oldPassword
           newPassword = Except.error "Current password is incorrect" ∧
       (6 ≤ oldPassword.length → 6 ≤ newPassword.length →
         putUserPasswordRoute hashPassword comparePasswords s id oldPassword
           newPassword newPassword = (400, s))) ∧
    (comparePasswords oldPassword u.password = true →
       ∃ u2 s2,
         updateUserPassword hashPassword comparePasswords s id oldPassword
             newPassword = Except.ok (u2, s2) ∧
         u2.password = hashPassword newPassword ∧
         u2.id = u.id ∧ u2.username = u.username ∧ u2.email = u.email ∧
         u2.isPremium = u.isPremium ∧
         u2.stripeCustomerId = u.stripeCustomerId ∧
         u2.stripeSubscriptionId = u.stripeSubscriptionId ∧
         u2.createdAt = u.createdAt ∧
         getUser s2 id = some u2 ∧
         s2.journals = s.journals ∧ s2.moods = s.moods ∧
         s2.users = mapSet s.users id u2) := by
  constructor
  · intro hcmp
    have herr : updateUserPassword hashPassword comparePasswords s id
        oldPassword newPassword = Except.error "Current password is incorrect" := by
      simp [updateUserPassword, h, hcmp]
    refine ⟨herr, ?_⟩
    intro h1 h2
    simp [putUserPasswordRoute, h1, h2, herr]
  · intro hcmp
    refine ⟨{ u with password := hashPassword newPassword },
      { s with users := mapSet s.users id { u with password := hashPassword newPassword } },
      ?_, rfl, rfl, rfl, rfl, rfl, rfl, rfl, rfl, ?_, rfl, rfl, rfl⟩
    · simp [updateUserPassword, h, hcmp]
    · simp [getUser, mapGet_mapSet_self]

/-- Witness for C7: with the concrete collaborator that hashes by appending
`"#"`, the stored user `ann` (password hash `"secret#"`): a wrong current
password yields the domain error and a 400 response with the store unchanged,
while the correct current password `"secret"` rehashes the new password. -/
theorem updateUserPassword_verifies_current_witness :
    (updateUserPassword (fun p => p ++ "#") (fun p stored => p ++ "#" == stored)
       oneUserState 1 "wrongpw" "newpass77" =
       Except.error "Current password is incorrect") ∧
    (putUserPasswordRoute (fun p => p ++ "#") (fun p stored => p ++ "#" == stored)
       oneUserState 1 "wrongpw" "newpass77" "newpass77" = (400, oneUserState)) ∧
    (∃ u2 s2,
       updateUserPassword (fun p => p ++ "#") (fun p stored => p ++ "#" == stored)
           oneUserState 1 "secret" "newpass77" = Except.ok (u2, s2) ∧
       u2.password = (fun p => p ++ "#") "newpass77" ∧
       u2.id = annUser.id ∧ u2.username = annUser.username ∧
       u2.email = annUser.email ∧ u2.isPremium = annUser.isPremium ∧
       u2.stripeCustomerId = annUser.stripeCustomerId ∧
       u2.stripeSubscriptionId = annUser.stripeSubscriptionId ∧
       u2.createdAt = annUser.createdAt ∧
       getUser s2 1 = some u2 ∧
       s2.journals = oneUserState.journals ∧ s2.moods = oneUserState.moods ∧
       s2.users = mapSet oneUserState.users 1 u2) :=
  ⟨((updateUserPassword_verifies_current (fun p => p ++ "#")
       (fun p stored => p ++ "#" == stored) oneUserState 1 annUser
       "wrongpw" "newpass77" rfl).1 (by decide)).1,
   ((updateUserPassword_verifies_current (fun p => p ++ "#")
       (fun p stored => p ++ "#" == stored) oneUserState 1 annUser
       "wrongpw" "newpass77" rfl).1 (by decide)).2 (by decide) (by decide),
   (updateUserPassword_verifies_current (fun p => p ++ "#")
       (fun p stored => p ++ "#" == stored) oneUserState 1 annUser
       "secret" "newpass77" rfl).2 (by decide)⟩

/-- C1 (evaluation at the failing input): an authenticated `POST /api/moods`
with rating 6 — a value outside `{1,2,3,4,5}` — is NOT rejected:
`insertMoodSchema` checks only that the rating is a number (drizzle-zod derives
no 1-5 range refinement from the `integer` column), so the request answers 201
and a `Mood` with rating 6 is created and stored, contradicting the claimed
400-and-no-Mood behaviour. -/
theorem postMoods_accepts_out_of_range_rating :
    (postMoodsRoute initialStorage 1000 1 (some 6) none).1 = 201 ∧
    (postMoodsRoute initialStorage 1000 1 (some 6) none).2.2 =
      some { id := 1, userId := 1, rating := 6, note := none, createdAt := 1000 } ∧
    getMood (postMoodsRoute initialStorage 1000 1 (some 6) none).2.1 1 =
      some { id := 1, userId := 1, rating := 6, note := none, createdAt := 1000 } ∧
    ¬ (6 : Int) ∈ ([1, 2, 3, 4, 5] : List Int) :=
  ⟨rfl, rfl, rfl, by decide⟩

/-- Stable sorting with a decidable, transitive, total key relation yields a
pairwise-ordered list. -/
theorem pairwise_mergeSort_le {α : Type} (key : α → α → Prop)
    [DecidableRel key]
    (htrans : ∀ a b c, key a b → key b c → key a c)
    (htotal : ∀ a b, key a b ∨ key b a) (l : List α) :
    (l.mergeSort (fun a b => decide (key a b))).Pairwise key := by
  have h := @List.sorted_mergeSort _ (fun a b => decide (key a b))
    (fun a b c hab hbc => by
      apply decide_eq_true
      exact htrans a b c (of_decide_eq_true hab) (of_decide_eq_true hbc))
    (fun a b => by
      rcases htotal a b with h1 | h1 <;> simp [h1]) l
  exact h.imp (fun hab => of_decide_eq_true hab)

/-- C6: for every owner and pair of bounds, the mood range query returns
exactly the owner's moods with `createdAt` in the inclusive interval
`[startDate, endDate]` (as a permutation of the filtered store contents and as
a membership characterisation), ordered oldest-first by `createdAt` — while
the plain per-owner mood list is ordered newest-first. -/
theorem mood_range_query_correct (s : StorageState)
    (uid startDate endDate : Nat) :
    (getMoodsByUserIdInRange s uid startDate endDate).Perm
      ((mapValues s.moods).filter
        (fun m => m.userId = uid ∧ startDate ≤ m.createdAt ∧
          m.createdAt ≤ endDate)) ∧
    (∀ m : Mood, m ∈ getMoodsByUserIdInRange s uid startDate endDate ↔
       m ∈ mapValues s.moods ∧ m.userId = uid ∧ startDate ≤ m.createdAt ∧
       m.createdAt ≤ endDate) ∧
    (getMoodsByUserIdInRange s uid startDate endDate).Pairwise
      (fun a b => a.createdAt ≤ b.createdAt) ∧
    (getMoodsByUserId s uid).Pairwise
      (fun a b => b.createdAt ≤ a.createdAt) := by
  refine ⟨List.mergeSort_perm _ _, ?_, ?_, ?_⟩
  · intro m
    simp [getMoodsByUserIdInRange, List.mem_filter]
  · exact pairwise_mergeSort_le (fun a b : Mood => a.createdAt ≤ b.createdAt)
      (fun a b c hab hbc => le_trans hab hbc)
      (fun a b => Nat.le_total a.createdAt b.createdAt) _
  · exact pairwise_mergeSort_le (fun a b : Mood => b.createdAt ≤ a.createdAt)
      (fun a b c hab hbc => le_trans hbc hab)
      (fun a b => Nat.le_total b.createdAt a.createdAt) _

/-- The id log of one store is bounded below by its counter and strictly
increasing, provided a create hands out exactly the current counter and every
operation keeps the counter from decreasing. -/
theorem assignedIds_strict_mono (pick : StoreOp → StorageState → Option Nat)
    (c : StorageState → Nat)
    (hpick : ∀ op s i, pick op s = some i → i = c s ∧ c s < c (applyOp s op))
    (hmono : ∀ op s, c s ≤ c (applyOp s op)) :
    ∀ (ops : List StoreOp) (s : StorageState),
      (∀ i ∈ assignedIds pick s ops, c s ≤ i) ∧
      (assignedIds pick s ops).Pairwise (· < ·) := by
  intro ops
  induction ops with
  | nil =>
    intro s
    simp [assignedIds]
  | cons op ops ih =>
    intro s
    cases hp : pick op s with
    | none =>
      refine ⟨?_, ?_⟩
      · intro i hi
        simp only [assignedIds, hp] at hi
        exact le_trans (hmono op s) ((ih (applyOp s op)).1 i hi)
      · simp only [assignedIds, hp]
        exact (ih (applyOp s op)).2
    | some j =>
      obtain ⟨hj, hlt⟩ := hpick op s j hp
      subst hj
      refine ⟨?_, ?_⟩
      · intro i hi
        simp only [assignedIds, hp, List.mem_cons] at hi
        rcases hi with rfl | hi
        · exact le_refl _
        · exact le_trans (hmono op s) ((ih (applyOp s op)).1 i hi)
      · simp only [assignedIds, hp, List.pairwise_cons]
        refine ⟨?_, (ih (applyOp s op)).2⟩
        intro i hi
        exact lt_of_lt_of_le hlt ((ih (applyOp s op)).1 i hi)

/-- C8: for each entity store (users, journals, moods) and every sequence of
create and delete operations from a fresh store, the ids handed out by create
are strictly increasing in order of assignment — each new id exceeds every
previously assigned id, including those of deleted rows, so ids are never
reused — and each create stamps the creation time and stores and returns the
persisted entity. -/
theorem create_assigns_monotonic_ids :
    (∀ ops : List StoreOp,
       (assignedIds pickJournalId initialStorage ops).Pairwise (· < ·) ∧
       (assignedIds pickUserId initialStorage ops).Pairwise (· < ·) ∧
       (assignedIds pickMoodId initialStorage ops).Pairwise (· < ·)) ∧
    (∀ (s : StorageState) (now : Nat) (ins : InsertJournal),
       (createJournal s now ins).1.createdAt = now ∧
       getJournal (createJournal s now ins).2 (createJournal s now ins).1.id =
         some (createJournal s now ins).1) ∧
    (∀ (s : StorageState) (now : Nat) (ins : InsertUser),
       (createUser s now ins).1.createdAt = now ∧
       getUser (createUser s now ins).2 (createUser s now ins).1.id =
         some (createUser s now ins).1) ∧
    (∀ (s : StorageState) (now : Nat) (ins : InsertMood),
       (createMood s now ins).1.createdAt = now ∧
       getMood (createMood s now ins).2 (createMood s now ins).1.id =
         some (createMood s now ins).1) := by
  refine ⟨?_, ?_, ?_, ?_⟩
  · intro ops
    refine ⟨?_, ?_, ?_⟩
    · exact (assignedIds_strict_mono pickJournalId (fun s => s.journalId)
        (by intro op s i h; cases op <;>
          simp_all [pickJournalId, applyOp, createJournal])
        (by intro op s; cases op <;>
          simp [applyOp, createJournal, createUser, createMood, deleteJournal])
        ops initialStorage).2
    · exact (assignedIds_strict_mono pickUserId (fun s => s.userId)
        (by intro op s i h; cases op <;>
          simp_all [pickUserId, applyOp, createUser])
        (by intro op s; cases op <;>
          simp [applyOp, createJournal, createUser, createMood, deleteJournal])
        ops initialStorage).2
    · exact (assignedIds_strict_mono pickMoodId (fun s => s.moodId)
        (by intro op s i h; cases op <;>
          simp_all [pickMoodId, applyOp, createMood])
        (by intro op s; cases op <;>
          simp [applyOp, createJournal, createUser, createMood, deleteJournal])
        ops initialStorage).2
  · intro s now ins
    exact ⟨rfl, by simp [createJournal, getJournal, mapGet_mapSet_self]⟩
  · intro s now ins
    exact ⟨rfl, by simp [createUser, getUser, mapGet_mapSet_self]⟩
  · intro s now ins
    exact ⟨rfl, by simp [createMood, getMood, mapGet_mapSet_self]⟩

end MindfulJourney
